import Mathlib

/-!
Shallow embedding of the RANUM ADJENG KIRANI GRID application core
(src/App.tsx together with src/types.ts).

The app is a thin orchestrator around three opaque remote capabilities
(generate, edit, upscale).  We embed the pure decision logic of the three
handlers `handleGenerate`, `handleUpscale` and `handleImageUpload` as state
transformers.  External nondeterminism is made explicit:

* `CallEnv` holds the three remote capabilities as functions returning
  `Except String String` (failure message or base64 payload), mirroring a
  resolved or rejected promise;
* `GenCtx` holds the identifier sources: `now` stands for `Date.now()` and
  `uuid i` for the i-th draw of `crypto.randomUUID()` inside the 7-way
  edit batch (the draws are indexed by angle position, in dispatch order).

`Promise.allSettled` returns its results in the order of the input array,
independently of completion order, so the settled list of the 7-way batch
is a pure map over the static angle table.  Each handler also returns the
list of external calls it issued (the trace), so that claims about
"no call is made" are statable.

Transient UI fields that are always reset before the handler returns
(`isLoading`, `zoomLevel`) are not part of the modelled state; `isUpscaling`
is kept because the upscale button guard reads it.
-/

/-- One produced image, mirroring `ImageResult` from src/types.ts. -/
structure ImageResult where
  id : String
  data : String
  mimeType : String
  prompt : String
  model : String
  timestamp : Nat
deriving DecidableEq

/-- Mirror of the `GenerationMode` enum from src/types.ts. -/
inductive GenerationMode where
  | GENERATE
  | EDIT_ANGLES
deriving DecidableEq

/-- Mirror of the `ImageSize` enum from src/types.ts. -/
inductive ImageSize where
  | SIZE_1K
  | SIZE_2K
  | SIZE_4K
deriving DecidableEq

/-- Mirror of the `AspectRatio` union type from src/types.ts
(the five literal members, named here a1x1 for 1:1 and so on). -/
inductive Aspect where
  | a1x1
  | a3x4
  | a4x3
  | a16x9
  | a9x16
deriving DecidableEq

/-- One entry of the static camera-angle table inside `handleGenerate`. -/
structure AngleSpec where
  name : String
  promptSuffix : String
deriving DecidableEq

/-- The fixed 7-entry angle table from src/App.tsx lines 101-109,
with the exact name and suffix strings of the source. -/
def angles : List AngleSpec :=
  [ { name := "Low Angle",
      promptSuffix := "viewed from a low camera angle, looking up, dramatic perspective" },
    { name := "High Angle",
      promptSuffix := "viewed from a high camera angle, looking down, bird\x27s eye view" },
    { name := "Side Profile",
      promptSuffix := "viewed from the side profile, cinematic lighting" },
    { name := "Wide Shot",
      promptSuffix := "wide angle shot, showing surrounding context, environmental view" },
    { name := "Close Up",
      promptSuffix := "extreme close up shot, highly detailed texture, macro photography style" },
    { name := "Dutch Angle",
      promptSuffix := "Dutch angle shot, tilted camera horizon, dynamic energy, unease" },
    { name := "Over the Shoulder",
      promptSuffix := "over-the-shoulder shot, narrative perspective, depth of field" } ]

/-- Does `pat` match `hay` at its head (character by character)? -/
def matchHere : List Char → List Char → Bool
  | [], _ => true
  | _ :: _, [] => false
  | c :: cs, d :: ds => c == d && matchHere cs ds

/-- Does `pat` occur at some position of `hay`? -/
def matchFrom (pat : List Char) : List Char → Bool
  | [] => matchHere pat []
  | c :: rest => matchHere pat (c :: rest) || matchFrom pat rest

/-- Embedding of the JavaScript `s.includes(pat)` substring test. -/
def strIncludes (s pat : String) : Bool := matchFrom pat.data s.data

/-- The entitlement-failure substring the handlers look for in error
messages, from src/App.tsx lines 137, 147 and 179. -/
def entitlementMsg : String := "Requested entity was not found"

/-- The three opaque remote capabilities from src/services/geminiService,
as resolved-or-rejected results: `.ok` carries the base64 payload of a
fulfilled promise, `.error` the failure message of a rejected one. -/
structure CallEnv where
  generateImagePro : String → ImageSize → Aspect → Except String String
  editImageFlash : String → String → Aspect → Except String String
  upscaleImage : String → String → ImageSize → Except String String

/-- The identifier sources of one handler invocation: `now` is the value
of `Date.now()` and `uuid i` the i-th `crypto.randomUUID()` draw. -/
structure GenCtx where
  now : Nat
  uuid : Nat → String

/-- One external call issued by a handler, recorded in the trace. -/
inductive CallRec where
  | generateCall (prompt : String) (size : ImageSize) (aspect : Aspect)
  | editCall (img : String) (prompt : String) (aspect : Aspect)
  | upscaleCall (data : String) (prompt : String) (size : ImageSize)
deriving DecidableEq

/-- The component state of `App` that the three handlers read and write. -/
structure AppState where
  mode : GenerationMode
  prompt : String
  inputImage : Option String
  generatedImages : List ImageResult
  error : Option String
  selectedSize : ImageSize
  selectedAspect : Aspect
  viewImage : Option ImageResult
  isUpscaling : Bool
  hasApiKey : Bool
deriving DecidableEq

/-- The initial component state (the useState initialisers of src/App.tsx). -/
def initialState : AppState :=
  { mode := GenerationMode.EDIT_ANGLES
    prompt := ""
    inputImage := none
    generatedImages := []
    error := none
    selectedSize := ImageSize.SIZE_1K
    selectedAspect := Aspect.a1x1
    viewImage := none
    isUpscaling := false
    hasApiKey := true }

/-- The per-angle prompt built at src/App.tsx lines 113-115: the user
instruction followed by the suffix when the instruction is non-empty
(JavaScript string truthiness), else the fixed template. -/
def fullPromptFor (userPrompt : String) (a : AngleSpec) : String :=
  if userPrompt = "" then
    "Keep the subject but change camera to " ++ a.promptSuffix
  else
    userPrompt ++ ", " ++ a.promptSuffix

/-- The artifact built on generate-mode success, src/App.tsx lines 86-93. -/
def mkProArtifact (ctx : GenCtx) (userPrompt : String) (b : String) : ImageResult :=
  { id := toString ctx.now
    data := b
    mimeType := "image/png"
    prompt := userPrompt
    model := "gemini-3-pro-image-preview"
    timestamp := ctx.now }

/-- The artifact built for the angle at position `i` on a fulfilled edit
call, src/App.tsx lines 118-125. -/
def mkEditArtifact (ctx : GenCtx) (i : Nat) (a : AngleSpec) (userPrompt b : String) :
    ImageResult :=
  { id := ctx.uuid i
    data := b
    mimeType := "image/png"
    prompt := a.name ++ ": " ++ fullPromptFor userPrompt a
    model := "gemini-2.5-flash-image"
    timestamp := ctx.now }

/-- One settled promise of the edit batch: the edit call for the angle at
position `i`, wrapped into an artifact when fulfilled. -/
def settleOne (env : CallEnv) (ctx : GenCtx) (src userPrompt : String) (r : Aspect)
    (i : Nat) (a : AngleSpec) : Except String ImageResult :=
  match env.editImageFlash src (fullPromptFor userPrompt a) r with
  | .ok b => .ok (mkEditArtifact ctx i a userPrompt b)
  | .error e => .error e

/-- Settle the edit calls for a tail of the angle table starting at
position `n`. -/
def settleAll (env : CallEnv) (ctx : GenCtx) (src userPrompt : String) (r : Aspect) :
    Nat → List AngleSpec → List (Except String ImageResult)
  | _, [] => []
  | n, a :: rest => settleOne env ctx src userPrompt r n a ::
      settleAll env ctx src userPrompt r (n + 1) rest

/-- The settled results of the 7-way edit batch, in angle-table order
(`Promise.allSettled` keeps input order), src/App.tsx lines 112-128. -/
def batchResults (env : CallEnv) (ctx : GenCtx) (src userPrompt : String) (r : Aspect) :
    List (Except String ImageResult) :=
  settleAll env ctx src userPrompt r 0 angles

/-- The values of the fulfilled results in order, src/App.tsx lines 130-132. -/
def fulfilledOf (rs : List (Except String ImageResult)) : List ImageResult :=
  rs.filterMap fun r => match r with | .ok v => some v | .error _ => none

/-- The failure message of the first rejected result, if any,
src/App.tsx line 136. -/
def firstRejected (rs : List (Except String ImageResult)) : Option String :=
  rs.findSome? fun r => match r with | .error e => some e | .ok _ => none

/-- The check at src/App.tsx line 137: does the first rejected result
carry the entitlement-failure substring? -/
def firstRejEntitlement (rs : List (Except String ImageResult)) : Bool :=
  match firstRejected rs with
  | some m => strIncludes m entitlementMsg
  | none => false

/-- The message of the error thrown when the whole batch failed,
src/App.tsx line 140: the first rejected message when truthy, else the
fixed fallback text. -/
def batchErrMsg (rs : List (Except String ImageResult)) : String :=
  match firstRejected rs with
  | some m => if m = "" then "Failed to generate any variations." else m
  | none => "Failed to generate any variations."

/-- The 7 edit calls dispatched by the batch, in angle-table order. -/
def editTrace (src userPrompt : String) (r : Aspect) : List CallRec :=
  angles.map fun a => CallRec.editCall src (fullPromptFor userPrompt a) r

/-- The catch block of `handleGenerate`, src/App.tsx lines 145-149:
store the message (with a fallback when falsy) in the error slot and drop
the API key flag when the message carries the entitlement substring or
the text API key. -/
def applyCatch (st : AppState) (msg : String) : AppState :=
  let st1 : AppState :=
    { st with error := some (if msg = "" then "An error occurred during generation" else msg) }
  if strIncludes msg entitlementMsg || strIncludes msg "API key" then
    { st1 with hasApiKey := false }
  else
    st1

/-- The `handleGenerate` handler, src/App.tsx lines 70-153, returning the
final state together with the list of external calls issued. -/
def handleGenerate (env : CallEnv) (ctx : GenCtx) (st : AppState) :
    AppState × List CallRec :=
  let st0 : AppState := { st with error := none }
  match st0.mode with
  | GenerationMode.GENERATE =>
    if st0.hasApiKey = false then
      (st0, [])
    else if st0.prompt = "" then
      (applyCatch st0 "Please enter a prompt description.", [])
    else
      match env.generateImagePro st0.prompt st0.selectedSize st0.selectedAspect with
      | .ok b =>
          ({ st0 with generatedImages := [mkProArtifact ctx st0.prompt b] },
           [CallRec.generateCall st0.prompt st0.selectedSize st0.selectedAspect])
      | .error e =>
          (applyCatch st0 e,
           [CallRec.generateCall st0.prompt st0.selectedSize st0.selectedAspect])
  | GenerationMode.EDIT_ANGLES =>
    match st0.inputImage with
    | none => (applyCatch st0 "Please upload an image first.", [])
    | some src =>
      let rs := batchResults env ctx src st0.prompt st0.selectedAspect
      let succ := fulfilledOf rs
      if succ = [] then
        let st1 : AppState :=
          if firstRejEntitlement rs then { st0 with hasApiKey := false } else st0
        (applyCatch st1 (batchErrMsg rs), editTrace src st0.prompt st0.selectedAspect)
      else
        ({ st0 with generatedImages := succ }, editTrace src st0.prompt st0.selectedAspect)

/-- The artifact built on upscale success, src/App.tsx lines 165-172.
Note that the model string is the fixed pro-model identifier with the
Upscaled marker, independent of the source artifact. -/
def mkUpscaledArtifact (ctx : GenCtx) (src : ImageResult) (b : String) : ImageResult :=
  { id := toString ctx.now
    data := b
    mimeType := "image/png"
    prompt := src.prompt
    model := "gemini-3-pro-image-preview (Upscaled)"
    timestamp := ctx.now }

/-- The `handleUpscale` handler, src/App.tsx lines 155-185. -/
def handleUpscale (env : CallEnv) (ctx : GenCtx) (st : AppState) (img : ImageResult) :
    AppState × List CallRec :=
  if st.hasApiKey = false then
    ({ st with hasApiKey := false }, [])
  else
    match env.upscaleImage img.data img.prompt ImageSize.SIZE_4K with
    | .ok b =>
        let r := mkUpscaledArtifact ctx img b
        ({ st with viewImage := some r, generatedImages := r :: st.generatedImages },
         [CallRec.upscaleCall img.data img.prompt ImageSize.SIZE_4K])
    | .error e =>
        let st1 : AppState :=
          { st with error := some (if e = "" then "Failed to upscale" else e) }
        ((if strIncludes e entitlementMsg then { st1 with hasApiKey := false } else st1),
         [CallRec.upscaleCall img.data img.prompt ImageSize.SIZE_4K])

/-- The `handleImageUpload` handler, src/App.tsx lines 54-64, at the point
where the reader has produced the data URL of the chosen file: store the
new source image and clear the previous generations.  No remote call is
involved. -/
def handleImageUpload (st : AppState) (dataUrl : String) : AppState × List CallRec :=
  ({ st with inputImage := some dataUrl, generatedImages := [] }, [])

/-- The disabled condition of the upscale button, src/App.tsx line 435. -/
def upscaleButtonDisabled (st : AppState) (img : ImageResult) : Bool :=
  st.isUpscaling || strIncludes img.model "Upscaled"

/-- Clicking the upscale button of the viewer modal: the handler only runs
when an image is on view and the button guard does not disable it
(src/App.tsx lines 433-444). -/
def clickUpscale (env : CallEnv) (ctx : GenCtx) (st : AppState) :
    AppState × List CallRec :=
  match st.viewImage with
  | none => (st, [])
  | some img =>
    if upscaleButtonDisabled st img then (st, [])
    else handleUpscale env ctx st img

/-- The user-visible operations that drive the component state. -/
inductive Op where
  | generate (env : CallEnv) (ctx : GenCtx)
  | upscaleClick (env : CallEnv) (ctx : GenCtx)
  | upload (dataUrl : String)
  | view (i : Nat)
  | closeView
  | setMode (m : GenerationMode)
  | setPrompt (p : String)

/-- One UI event step. -/
def step (st : AppState) : Op → AppState × List CallRec
  | Op.generate env ctx => handleGenerate env ctx st
  | Op.upscaleClick env ctx => clickUpscale env ctx st
  | Op.upload d => handleImageUpload st d
  | Op.view i => ({ st with viewImage := st.generatedImages[i]? }, [])
  | Op.closeView => ({ st with viewImage := none }, [])
  | Op.setMode m => ({ st with mode := m }, [])
  | Op.setPrompt p => ({ st with prompt := p }, [])

/-- Run a sequence of UI events. -/
def runOps (st : AppState) : List Op → AppState
  | [] => st
  | op :: ops => runOps (step st op).1 ops

/-- The ids currently in the Result Store. -/
def storeIds (st : AppState) : List String :=
  st.generatedImages.map ImageResult.id

/-- Proof device: the fulfilled entries of a settled list, tagged with
their positions counted from `n`. -/
def fulfilledWithIdx : Nat → List (Except String ImageResult) → List (Nat × ImageResult)
  | _, [] => []
  | n, .ok v :: rest => (n, v) :: fulfilledWithIdx (n + 1) rest
  | n, .error _ :: rest => fulfilledWithIdx (n + 1) rest

theorem fulfilledWithIdx_map_snd (n : Nat) (rs : List (Except String ImageResult)) :
    (fulfilledWithIdx n rs).map Prod.snd = fulfilledOf rs := by
  induction rs generalizing n with
  | nil => rfl
  | cons r rest ih =>
    cases r with
    | ok v => simpa [fulfilledWithIdx, fulfilledOf, List.filterMap_cons] using ih (n + 1)
    | error e => simpa [fulfilledWithIdx, fulfilledOf, List.filterMap_cons] using ih (n + 1)

theorem fulfilledWithIdx_le (n : Nat) (rs : List (Except String ImageResult)) :
    ∀ q ∈ fulfilledWithIdx n rs, n ≤ q.1 := by
  induction rs generalizing n with
  | nil => intro q hq; simp [fulfilledWithIdx] at hq
  | cons r rest ih =>
    cases r with
    | ok v =>
      intro q hq
      rcases List.mem_cons.1 hq with h | h
      · subst h; exact Nat.le_refl n
      · exact Nat.le_of_succ_le (ih (n + 1) q h)
    | error e =>
      intro q hq
      exact Nat.le_of_succ_le (ih (n + 1) q hq)

theorem fulfilledWithIdx_pairwise (n : Nat) (rs : List (Except String ImageResult)) :
    (fulfilledWithIdx n rs).Pairwise (fun p q => p.1 < q.1) := by
  induction rs generalizing n with
  | nil => exact List.Pairwise.nil
  | cons r rest ih =>
    cases r with
    | ok v =>
      refine List.pairwise_cons.2 ⟨?_, ih (n + 1)⟩
      intro q hq
      exact Nat.lt_of_succ_le (fulfilledWithIdx_le (n + 1) rest q hq)
    | error e => exact ih (n + 1)

theorem fulfilledWithIdx_settleAll (env : CallEnv) (ctx : GenCtx)
    (src userPrompt : String) (r : Aspect) (l : List AngleSpec) (n : Nat) :
    ∀ q ∈ fulfilledWithIdx n (settleAll env ctx src userPrompt r n l),
      n ≤ q.1 ∧ q.1 < n + l.length ∧
      ∃ a b, l[q.1 - n]? = some a ∧ q.2 = mkEditArtifact ctx q.1 a userPrompt b := by
  induction l generalizing n with
  | nil => intro q hq; simp [settleAll, fulfilledWithIdx] at hq
  | cons a rest ih =>
    intro q hq
    rw [settleAll] at hq
    unfold settleOne at hq
    cases hc : env.editImageFlash src (fullPromptFor userPrompt a) r with
    | ok b =>
      rw [hc] at hq
      simp only [fulfilledWithIdx] at hq
      rcases List.mem_cons.1 hq with h | h
      · subst h
        refine ⟨Nat.le_refl n, by simp only [List.length_cons]; omega, a, b, ?_, rfl⟩
        simp
      · obtain ⟨h1, h2, a', b', h3, h4⟩ := ih (n + 1) q h
        refine ⟨by omega, by simp only [List.length_cons]; omega, a', b', ?_, h4⟩
        have hsub : q.1 - n = (q.1 - (n + 1)) + 1 := by omega
        rw [hsub, List.getElem?_cons_succ]
        exact h3
    | error e =>
      rw [hc] at hq
      simp only [fulfilledWithIdx] at hq
      obtain ⟨h1, h2, a', b', h3, h4⟩ := ih (n + 1) q hq
      refine ⟨by omega, by simp only [List.length_cons]; omega, a', b', ?_, h4⟩
      have hsub : q.1 - n = (q.1 - (n + 1)) + 1 := by omega
      rw [hsub, List.getElem?_cons_succ]
      exact h3

theorem nodup_ids_of_slots (u : Nat → String) (L : List (Nat × ImageResult))
    (hp : L.Pairwise (fun p q => p.1 < q.1))
    (hs : ∀ p ∈ L, p.2.id = u p.1 ∧ p.1 < 7)
    (hu : ∀ i j, i < 7 → j < 7 → i ≠ j → u i ≠ u j) :
    (L.map (fun p => p.2.id)).Nodup := by
  induction L with
  | nil => simp
  | cons p L ih =>
    rw [List.map_cons, List.nodup_cons]
    obtain ⟨hlt, hp'⟩ := List.pairwise_cons.1 hp
    refine ⟨?_, ih hp' (fun q hq => hs q (List.mem_cons_of_mem p hq))⟩
    intro hmem
    rcases List.mem_map.1 hmem with ⟨q, hqL, hid⟩
    have h1 := hs p (List.mem_cons_self p L)
    have h2 := hs q (List.mem_cons_of_mem p hqL)
    exact hu p.1 q.1 h1.2 h2.2 (Nat.ne_of_lt (hlt q hqL))
      (by rw [← h1.1, ← h2.1]; exact hid.symm)

theorem batchErrMsg_ne_empty (rs : List (Except String ImageResult)) :
    batchErrMsg rs ≠ "" := by
  unfold batchErrMsg
  cases firstRejected rs with
  | none => decide
  | some m =>
    show (if m = "" then "Failed to generate any variations." else m) ≠ ""
    by_cases h : m = ""
    · rw [if_pos h]; decide
    · rw [if_neg h]; exact h

theorem applyCatch_generatedImages (st : AppState) (m : String) :
    (applyCatch st m).generatedImages = st.generatedImages := by
  by_cases h : (strIncludes m entitlementMsg || strIncludes m "API key") = true <;>
    simp [applyCatch, h]

theorem applyCatch_error (st : AppState) (m : String) :
    (applyCatch st m).error =
      some (if m = "" then "An error occurred during generation" else m) := by
  by_cases h : (strIncludes m entitlementMsg || strIncludes m "API key") = true <;>
    simp [applyCatch, h]

theorem applyCatch_hasApiKey (st : AppState) (m : String) :
    (applyCatch st m).hasApiKey =
      if strIncludes m entitlementMsg || strIncludes m "API key" then false
      else st.hasApiKey := by
  by_cases h : (strIncludes m entitlementMsg || strIncludes m "API key") = true <;>
    simp [applyCatch, h]

theorem settleAll_length (env : CallEnv) (ctx : GenCtx) (src userPrompt : String)
    (r : Aspect) (n : Nat) (l : List AngleSpec) :
    (settleAll env ctx src userPrompt r n l).length = l.length := by
  induction l generalizing n with
  | nil => rfl
  | cons a rest ih => simp [settleAll, ih]

theorem batchResults_length (env : CallEnv) (ctx : GenCtx) (src userPrompt : String)
    (r : Aspect) : (batchResults env ctx src userPrompt r).length = 7 := by
  rw [batchResults, settleAll_length]
  rfl

/-- An environment in which every remote call succeeds. -/
def okEnv : CallEnv :=
  { generateImagePro := fun _ _ _ => .ok "G"
    editImageFlash := fun _ _ _ => .ok "E"
    upscaleImage := fun _ _ _ => .ok "U" }

/-- An environment in which every remote call fails with message `msg`. -/
def failEnv (msg : String) : CallEnv :=
  { generateImagePro := fun _ _ _ => .error msg
    editImageFlash := fun _ _ _ => .error msg
    upscaleImage := fun _ _ _ => .error msg }

/-- A concrete identifier context. -/
def ctx42 : GenCtx := { now := 42, uuid := fun n => "u" ++ toString n }

/-- Edit-angles mode with a source image uploaded. -/
def editSt : AppState := { initialState with inputImage := some "src" }

/-- Claim C1 (amended): for every edit-by-angle batch, when at least one of the
7 calls is fulfilled the stored result is exactly the list of artifacts of
the fulfilled calls, with a count between 1 and 7, and no error is
surfaced; the operation fails exactly when all 7 calls fail, and the
surfaced message is the message of the first rejected call when that
message is non-empty (an empty message is replaced by the fixed fallback
text).  7 edit calls are dispatched in every case. -/
theorem C1_edit_batch_outcome (env : CallEnv) (ctx : GenCtx) (st : AppState) (src : String)
    (hm : st.mode = GenerationMode.EDIT_ANGLES) (hi : st.inputImage = some src) :
    (fulfilledOf (batchResults env ctx src st.prompt st.selectedAspect) ≠ [] →
        (handleGenerate env ctx st).1.generatedImages
            = fulfilledOf (batchResults env ctx src st.prompt st.selectedAspect)
        ∧ 1 ≤ (fulfilledOf (batchResults env ctx src st.prompt st.selectedAspect)).length
        ∧ (fulfilledOf (batchResults env ctx src st.prompt st.selectedAspect)).length ≤ 7
        ∧ (handleGenerate env ctx st).1.error = none)
    ∧ ((handleGenerate env ctx st).1.error ≠ none
        ↔ fulfilledOf (batchResults env ctx src st.prompt st.selectedAspect) = [])
    ∧ (fulfilledOf (batchResults env ctx src st.prompt st.selectedAspect) = [] →
        (handleGenerate env ctx st).1.error
            = some (batchErrMsg (batchResults env ctx src st.prompt st.selectedAspect))
        ∧ ∀ m, firstRejected (batchResults env ctx src st.prompt st.selectedAspect) = some m →
            m ≠ "" → batchErrMsg (batchResults env ctx src st.prompt st.selectedAspect) = m)
    ∧ (handleGenerate env ctx st).2.length = 7 := by
  obtain ⟨mo, p, ii, gi, er, sz, ra, vi, iu, hk⟩ := st
  obtain rfl : mo = GenerationMode.EDIT_ANGLES := hm
  obtain rfl : ii = some src := hi
  by_cases hs : fulfilledOf (batchResults env ctx src p ra) = []
  · refine ⟨fun h => absurd hs h, ?_, fun _ => ⟨?_, ?_⟩, ?_⟩
    · simp [handleGenerate, hs, applyCatch_error, batchErrMsg_ne_empty]
    · simp only [handleGenerate, hs, if_pos]
      rw [applyCatch_error, if_neg (batchErrMsg_ne_empty _)]
    · intro m hfr hne
      unfold batchErrMsg
      rw [hfr]
      show (if m = "" then "Failed to generate any variations." else m) = m
      rw [if_neg hne]
    · simp [handleGenerate, hs, editTrace]
      rfl
  · have hlen7 : (fulfilledOf (batchResults env ctx src p ra)).length ≤ 7 := by
      calc (fulfilledOf (batchResults env ctx src p ra)).length
          ≤ (batchResults env ctx src p ra).length := List.length_filterMap_le _ _
        _ = 7 := batchResults_length env ctx src p ra
    refine ⟨fun _ => ⟨?_, ?_, hlen7, ?_⟩, ?_, fun h => absurd h hs, ?_⟩
    · simp [handleGenerate, hs]
    · exact Nat.succ_le_of_lt (List.length_pos.2 hs)
    · simp [handleGenerate, hs]
    · simp [handleGenerate, hs]
    · simp [handleGenerate, hs, editTrace]
      rfl

/-- Claim C1 counterexample: when all 7 calls fail with an empty message,
the surfaced error is the fixed fallback text, not the (empty) message of
the first rejected call. -/
theorem C1_cex :
    (handleGenerate (failEnv "") ctx42 editSt).1.error
        = some "Failed to generate any variations."
  ∧ firstRejected (batchResults (failEnv "") ctx42 "src" editSt.prompt editSt.selectedAspect)
        = some ""
  ∧ ("Failed to generate any variations." : String) ≠ "" := by
  decide

/-- Claim C1 witness: a batch in which every call succeeds stores exactly
the fulfilled artifacts. -/
theorem C1_edit_batch_outcome_witness :
    (handleGenerate okEnv ctx42 editSt).1.generatedImages
      = fulfilledOf (batchResults okEnv ctx42 "src" editSt.prompt editSt.selectedAspect) :=
  ((C1_edit_batch_outcome okEnv ctx42 editSt "src" rfl rfl).1 (by decide)).1

/-- Claim C2: on a partially or fully successful edit batch, the stored
list is the index-ordered projection of the fulfilled per-angle artifacts:
the angle positions are strictly increasing along the list, so the
artifact of angle i precedes that of angle j whenever i < j, and each
artifact carries the fast-edit model tag and a prompt prefixed by its
angle name.  (In the embedding `Promise.allSettled` output is in dispatch
order by construction, which is how the source is insensitive to
completion order.) -/
theorem C2_angle_order (env : CallEnv) (ctx : GenCtx) (st : AppState) (src : String)
    (hm : st.mode = GenerationMode.EDIT_ANGLES) (hi : st.inputImage = some src)
    (hs : fulfilledOf (batchResults env ctx src st.prompt st.selectedAspect) ≠ []) :
    (handleGenerate env ctx st).1.generatedImages
        = (fulfilledWithIdx 0 (batchResults env ctx src st.prompt st.selectedAspect)).map
            Prod.snd
    ∧ (fulfilledWithIdx 0 (batchResults env ctx src st.prompt st.selectedAspect)).Pairwise
        (fun q q2 => q.1 < q2.1)
    ∧ ∀ q ∈ fulfilledWithIdx 0 (batchResults env ctx src st.prompt st.selectedAspect),
        ∃ a, angles[q.1]? = some a
          ∧ q.2.model = "gemini-2.5-flash-image"
          ∧ q.2.prompt = a.name ++ ": " ++ fullPromptFor st.prompt a := by
  obtain ⟨mo, p, ii, gi, er, sz, ra, vi, iu, hk⟩ := st
  obtain rfl : mo = GenerationMode.EDIT_ANGLES := hm
  obtain rfl : ii = some src := hi
  have hs' : fulfilledOf (batchResults env ctx src p ra) ≠ [] := hs
  refine ⟨?_, fulfilledWithIdx_pairwise 0 _, ?_⟩
  · rw [fulfilledWithIdx_map_snd]
    simp [handleGenerate, hs']
  · intro q hq
    have hq' : q ∈ fulfilledWithIdx 0 (settleAll env ctx src p ra 0 angles) := hq
    obtain ⟨-, -, a, b, ha, hb⟩ := fulfilledWithIdx_settleAll env ctx src p ra angles 0 q hq'
    rw [Nat.sub_zero] at ha
    exact ⟨a, ha, by rw [hb]; rfl, by rw [hb]; rfl⟩

/-- Claim C2 witness: the all-successful batch. -/
theorem C2_angle_order_witness :
    (handleGenerate okEnv ctx42 editSt).1.generatedImages
      = (fulfilledWithIdx 0
          (batchResults okEnv ctx42 "src" editSt.prompt editSt.selectedAspect)).map Prod.snd :=
  (C2_angle_order okEnv ctx42 editSt "src" rfl rfl (by decide)).1

/-- Claim C3 counterexample: a generate-mode failure whose message
contains the text API key but not the entitlement substring still flips
the authorized flag to false. -/
theorem C3_cex :
    (handleGenerate (failEnv "invalid API key here") ctx42
        { initialState with mode := GenerationMode.GENERATE, prompt := "p" }).1.hasApiKey
        = false
  ∧ strIncludes "invalid API key here" entitlementMsg = false
  ∧ ({ initialState with mode := GenerationMode.GENERATE, prompt := "p" } : AppState).hasApiKey
        = true := by
  decide

/-- Claim C3 (amended): an upscale failure flips the authorized flag iff
its message contains the entitlement substring; a generate failure flips
it iff its message contains the entitlement substring or the text
API key; an all-failed edit batch flips it iff the first rejected message
contains the entitlement substring or the surfaced message contains the
entitlement substring or the text API key.  In each case a failure whose
message matches neither pattern leaves the flag unchanged. -/
theorem C3_auth_flag (env : CallEnv) (ctx : GenCtx) (st : AppState)
    (img : ImageResult) (src e : String) :
    (st.hasApiKey = true →
      env.upscaleImage img.data img.prompt ImageSize.SIZE_4K = .error e →
      ((handleUpscale env ctx st img).1.hasApiKey = false
        ↔ strIncludes e entitlementMsg = true))
  ∧ (st.mode = GenerationMode.GENERATE → st.hasApiKey = true → st.prompt ≠ "" →
      env.generateImagePro st.prompt st.selectedSize st.selectedAspect = .error e →
      ((handleGenerate env ctx st).1.hasApiKey = false
        ↔ (strIncludes e entitlementMsg || strIncludes e "API key") = true))
  ∧ (st.mode = GenerationMode.EDIT_ANGLES → st.hasApiKey = true →
      st.inputImage = some src →
      fulfilledOf (batchResults env ctx src st.prompt st.selectedAspect) = [] →
      ((handleGenerate env ctx st).1.hasApiKey = false
        ↔ (firstRejEntitlement (batchResults env ctx src st.prompt st.selectedAspect)
            || strIncludes (batchErrMsg (batchResults env ctx src st.prompt st.selectedAspect))
                entitlementMsg
            || strIncludes (batchErrMsg (batchResults env ctx src st.prompt st.selectedAspect))
                "API key") = true)) := by
  refine ⟨?_, ?_, ?_⟩
  · intro hk he
    by_cases hc : strIncludes e entitlementMsg = true <;>
      simp [handleUpscale, hk, he, hc]
  · intro hm hk hp he
    obtain ⟨mo, p, ii, gi, er, sz, ra, vi, iu, hk2⟩ := st
    obtain rfl : mo = GenerationMode.GENERATE := hm
    obtain rfl : hk2 = true := hk
    have hp' : ¬ (p = "") := hp
    have he' : env.generateImagePro p sz ra = .error e := he
    by_cases hc : (strIncludes e entitlementMsg || strIncludes e "API key") = true <;>
      simp [handleGenerate, hp', he', applyCatch_hasApiKey, hc]
  · intro hm hk hi hall
    obtain ⟨mo, p, ii, gi, er, sz, ra, vi, iu, hk2⟩ := st
    obtain rfl : mo = GenerationMode.EDIT_ANGLES := hm
    obtain rfl : hk2 = true := hk
    obtain rfl : ii = some src := hi
    have hall' : fulfilledOf (batchResults env ctx src p ra) = [] := hall
    by_cases hfe : firstRejEntitlement (batchResults env ctx src p ra) = true <;>
    by_cases hb : strIncludes (batchErrMsg (batchResults env ctx src p ra)) entitlementMsg
        = true <;>
    by_cases hc : strIncludes (batchErrMsg (batchResults env ctx src p ra)) "API key"
        = true <;>
      simp [handleGenerate, hall', applyCatch_hasApiKey, hfe, hb, hc]

/-- Claim C3 witness: an upscale failure carrying exactly the entitlement
substring flips the flag. -/
theorem C3_auth_flag_witness :
    (handleUpscale (failEnv entitlementMsg) ctx42 initialState
        { id := "i1", data := "D", mimeType := "image/png", prompt := "P",
          model := "gemini-2.5-flash-image", timestamp := 7 }).1.hasApiKey = false
      ↔ strIncludes entitlementMsg entitlementMsg = true :=
  (C3_auth_flag (failEnv entitlementMsg) ctx42 initialState
      { id := "i1", data := "D", mimeType := "image/png", prompt := "P",
        model := "gemini-2.5-flash-image", timestamp := 7 } "src" entitlementMsg).1 rfl rfl

/-- The flash-produced artifact used in concrete instances. -/
def flashImg : ImageResult :=
  { id := "i1", data := "D", mimeType := "image/png", prompt := "P",
    model := "gemini-2.5-flash-image", timestamp := 7 }

/-- Claim C4 counterexample: upscaling an artifact produced by the flash
model yields the fixed pro-model Upscaled tag, not the original model
identifier with the marker appended. -/
theorem C4_cex :
    ((handleUpscale okEnv ctx42 initialState flashImg).1.viewImage.map ImageResult.model)
        = some "gemini-3-pro-image-preview (Upscaled)"
  ∧ flashImg.model ++ " (Upscaled)" = "gemini-2.5-flash-image (Upscaled)"
  ∧ ("gemini-3-pro-image-preview (Upscaled)" : String)
        ≠ "gemini-2.5-flash-image (Upscaled)" := by
  decide

/-- Claim C4 (amended): on a successful upscale the new artifact carries
the fixed model string gemini-3-pro-image-preview (Upscaled) — the
pro-model identifier with the Upscaled marker appended, independent of
the source artifact — keeps the source prompt, is opened in the detail
view and is prepended to the Result Store. -/
theorem C4_upscale_result (env : CallEnv) (ctx : GenCtx) (st : AppState)
    (img : ImageResult) (b : String) (hk : st.hasApiKey = true)
    (hok : env.upscaleImage img.data img.prompt ImageSize.SIZE_4K = .ok b) :
    (handleUpscale env ctx st img).1.viewImage = some (mkUpscaledArtifact ctx img b)
  ∧ (handleUpscale env ctx st img).1.generatedImages
      = mkUpscaledArtifact ctx img b :: st.generatedImages
  ∧ (mkUpscaledArtifact ctx img b).model = "gemini-3-pro-image-preview (Upscaled)"
  ∧ strIncludes (mkUpscaledArtifact ctx img b).model "Upscaled" = true
  ∧ (mkUpscaledArtifact ctx img b).prompt = img.prompt := by
  have hmark : strIncludes "gemini-3-pro-image-preview (Upscaled)" "Upscaled" = true := by
    decide
  refine ⟨?_, ?_, rfl, hmark, rfl⟩ <;> simp [handleUpscale, hk, hok]

/-- Claim C4 witness. -/
theorem C4_upscale_result_witness :
    (handleUpscale okEnv ctx42 initialState flashImg).1.viewImage
      = some (mkUpscaledArtifact ctx42 flashImg "U") :=
  (C4_upscale_result okEnv ctx42 initialState flashImg "U" rfl rfl).1

/-- Claim C5: a completed generate stores exactly the new single-element
list, a completed edit batch stores exactly the fulfilled list (prior
contents discarded in both cases), and a completed upscale grows the
store by exactly one while retaining every prior artifact. -/
theorem C5_store_semantics (env : CallEnv) (ctx : GenCtx) (st : AppState) :
    (st.mode = GenerationMode.GENERATE → st.hasApiKey = true → st.prompt ≠ "" →
      ∀ b, env.generateImagePro st.prompt st.selectedSize st.selectedAspect = .ok b →
        (handleGenerate env ctx st).1.generatedImages = [mkProArtifact ctx st.prompt b])
  ∧ (∀ src, st.mode = GenerationMode.EDIT_ANGLES → st.inputImage = some src →
      fulfilledOf (batchResults env ctx src st.prompt st.selectedAspect) ≠ [] →
        (handleGenerate env ctx st).1.generatedImages
          = fulfilledOf (batchResults env ctx src st.prompt st.selectedAspect))
  ∧ (∀ img b, st.hasApiKey = true →
      env.upscaleImage img.data img.prompt ImageSize.SIZE_4K = .ok b →
        (handleUpscale env ctx st img).1.generatedImages.length
            = st.generatedImages.length + 1
        ∧ ∀ a ∈ st.generatedImages, a ∈ (handleUpscale env ctx st img).1.generatedImages) := by
  refine ⟨?_, ?_, ?_⟩
  · intro hm hk hp b hb
    obtain ⟨mo, p, ii, gi, er, sz, ra, vi, iu, hk2⟩ := st
    obtain rfl : mo = GenerationMode.GENERATE := hm
    obtain rfl : hk2 = true := hk
    have hp' : ¬ (p = "") := hp
    have hb' : env.generateImagePro p sz ra = .ok b := hb
    simp [handleGenerate, hp', hb']
  · intro src hm hi hs
    obtain ⟨mo, p, ii, gi, er, sz, ra, vi, iu, hk2⟩ := st
    obtain rfl : mo = GenerationMode.EDIT_ANGLES := hm
    obtain rfl : ii = some src := hi
    have hs' : fulfilledOf (batchResults env ctx src p ra) ≠ [] := hs
    simp [handleGenerate, hs']
  · intro img b hk hok
    constructor
    · simp [handleUpscale, hk, hok]
    · intro a ha
      simp only [handleUpscale, hk, hok]
      simp [List.mem_cons, ha]

/-- Claim C5 witness: upscaling over a one-element store yields a
two-element store. -/
theorem C5_store_semantics_witness :
    (handleUpscale okEnv ctx42 { initialState with generatedImages := [flashImg] }
        flashImg).1.generatedImages.length
      = ({ initialState with generatedImages := [flashImg] } : AppState).generatedImages.length
          + 1 :=
  ((C5_store_semantics okEnv ctx42
      { initialState with generatedImages := [flashImg] }).2.2 flashImg "U" rfl rfl).1

/-- Claim C6: a generate-mode submission with an empty prompt (flag set)
fails with the validation message and issues no external call, leaving
the Result Store untouched; an edit-mode submission without a source
image likewise fails with its validation message before any call. -/
theorem C6_validation (env : CallEnv) (ctx : GenCtx) (st : AppState) :
    (st.mode = GenerationMode.GENERATE → st.hasApiKey = true → st.prompt = "" →
        handleGenerate env ctx st
          = ({ st with error := some "Please enter a prompt description." }, []))
  ∧ (st.mode = GenerationMode.EDIT_ANGLES → st.inputImage = none →
        handleGenerate env ctx st
          = ({ st with error := some "Please upload an image first." }, [])) := by
  constructor
  · intro hm hk hp
    obtain ⟨mo, p, ii, gi, er, sz, ra, vi, iu, hk2⟩ := st
    obtain rfl : mo = GenerationMode.GENERATE := hm
    obtain rfl : hk2 = true := hk
    obtain rfl : p = "" := hp
    have h1 : ¬ (("Please enter a prompt description." : String) = "") := by decide
    have h2 : (strIncludes "Please enter a prompt description." entitlementMsg
        || strIncludes "Please enter a prompt description." "API key") = true ↔ False := by
      decide
    simp [handleGenerate, applyCatch, h1, h2]
  · intro hm hi
    obtain ⟨mo, p, ii, gi, er, sz, ra, vi, iu, hk2⟩ := st
    obtain rfl : mo = GenerationMode.EDIT_ANGLES := hm
    obtain rfl : ii = none := hi
    have h1 : ¬ (("Please upload an image first." : String) = "") := by decide
    have h2 : (strIncludes "Please upload an image first." entitlementMsg
        || strIncludes "Please upload an image first." "API key") = true ↔ False := by
      decide
    simp [handleGenerate, applyCatch, h1, h2]

/-- Claim C6 witness: the empty-prompt generate submission. -/
theorem C6_validation_witness :
    handleGenerate okEnv ctx42 { initialState with mode := GenerationMode.GENERATE }
      = ({ { initialState with mode := GenerationMode.GENERATE } with
            error := some "Please enter a prompt description." }, []) :=
  (C6_validation okEnv ctx42 { initialState with mode := GenerationMode.GENERATE }).1
    rfl rfl rfl

/-- Freshness of the identifiers an operation is about to draw: the batch
UUID draws are pairwise distinct, and the timestamp id of an upscale is
not already present in the store.  The code itself does not enforce this;
it is the assumption under which id uniqueness is preserved. -/
def opFresh (st : AppState) : Op → Prop
  | Op.generate _ ctx => ∀ i j, i < 7 → j < 7 → i ≠ j → ctx.uuid i ≠ ctx.uuid j
  | Op.upscaleClick _ ctx => toString ctx.now ∉ storeIds st
  | _ => True

/-- The operation sequence of the Claim C7 counterexample: generate one
image and upscale it with the same Date.now value. -/
def cexOps : List Op :=
  [ Op.setMode GenerationMode.GENERATE, Op.setPrompt "cat",
    Op.generate okEnv ctx42, Op.view 0, Op.upscaleClick okEnv ctx42 ]

/-- Claim C7 counterexample: generating an image and then upscaling it
within the same Date.now millisecond stores two artifacts with the same
id, so the ids in the Result Store are not pairwise distinct. -/
theorem C7_cex : ¬ (storeIds (runOps initialState cexOps)).Nodup := by decide

/-- Claim C7 (amended): the ids in the Result Store stay pairwise
distinct under every operation, provided the identifiers the operation
draws are fresh (`opFresh`): the 7 batch UUID draws pairwise distinct,
and an upscale timestamp id not already in the store.  Without that
proviso the invariant fails (see the counterexample). -/
theorem C7_nodup_preserved (st : AppState) (op : Op)
    (h : (storeIds st).Nodup) (hf : opFresh st op) :
    (storeIds (step st op).1).Nodup := by
  cases op with
  | generate env ctx =>
    obtain ⟨mo, p, ii, gi, er, sz, ra, vi, iu, hk⟩ := st
    have h' : (gi.map ImageResult.id).Nodup := h
    cases mo with
    | GENERATE =>
      cases hk with
      | false => simpa [step, handleGenerate, storeIds] using h'
      | true =>
        by_cases hp : p = ""
        · simpa [step, handleGenerate, hp, storeIds, applyCatch_generatedImages] using h'
        · cases hg : env.generateImagePro p sz ra with
          | ok b => simp [step, handleGenerate, hp, hg, storeIds]
          | error e =>
            simpa [step, handleGenerate, hp, hg, storeIds, applyCatch_generatedImages]
              using h'
    | EDIT_ANGLES =>
      cases ii with
      | none => simpa [step, handleGenerate, storeIds, applyCatch_generatedImages] using h'
      | some src =>
        by_cases hs : fulfilledOf (batchResults env ctx src p ra) = []
        · by_cases hfe : firstRejEntitlement (batchResults env ctx src p ra) = true <;>
            simpa [step, handleGenerate, hs, hfe, storeIds, applyCatch_generatedImages]
              using h'
        · have hnodup : ((fulfilledWithIdx 0 (batchResults env ctx src p ra)).map
              (fun q => q.2.id)).Nodup := by
            refine nodup_ids_of_slots ctx.uuid _ (fulfilledWithIdx_pairwise 0 _) ?_ hf
            intro q hq
            have hq' : q ∈ fulfilledWithIdx 0 (settleAll env ctx src p ra 0 angles) := hq
            obtain ⟨-, h2, a, b, -, hb⟩ :=
              fulfilledWithIdx_settleAll env ctx src p ra angles 0 q hq'
            exact ⟨by rw [hb]; rfl, by simpa using h2⟩
          simp only [step, handleGenerate, hs, storeIds]
          have hrw : fulfilledOf (batchResults env ctx src p ra)
              = (fulfilledWithIdx 0 (batchResults env ctx src p ra)).map Prod.snd :=
            (fulfilledWithIdx_map_snd 0 _).symm
          simp [hs, hrw, List.map_map]
          exact hnodup
  | upscaleClick env ctx =>
    obtain ⟨mo, p, ii, gi, er, sz, ra, vi, iu, hk⟩ := st
    have h' : (gi.map ImageResult.id).Nodup := h
    cases vi with
    | none => simpa [step, clickUpscale, storeIds] using h'
    | some img =>
      by_cases hd : upscaleButtonDisabled
          ⟨mo, p, ii, gi, er, sz, ra, some img, iu, hk⟩ img = true
      · simpa [step, clickUpscale, hd, storeIds] using h'
      · cases hk with
        | false => simpa [step, clickUpscale, hd, handleUpscale, storeIds] using h'
        | true =>
          cases hup : env.upscaleImage img.data img.prompt ImageSize.SIZE_4K with
          | ok b =>
            have hfresh : toString ctx.now ∉ gi.map ImageResult.id := hf
            have hfresh' : ∀ x ∈ gi, ¬ x.id = toString ctx.now := by
              intro x hx hxe
              exact hfresh (List.mem_map.2 ⟨x, hx, hxe⟩)
            simp [step, clickUpscale, hd, handleUpscale, hup, storeIds,
              mkUpscaledArtifact, List.nodup_cons]
            exact ⟨hfresh', h'⟩
          | error e =>
            by_cases hc : strIncludes e entitlementMsg = true <;>
              simpa [step, clickUpscale, hd, handleUpscale, hup, hc, storeIds] using h'
  | upload d => simp [step, handleImageUpload, storeIds]
  | view i => simpa [step, storeIds] using h
  | closeView => simpa [step, storeIds] using h
  | setMode m => simpa [step, storeIds] using h
  | setPrompt p => simpa [step, storeIds] using h

/-- Claim C7 witness: a fresh upload step preserves distinctness. -/
theorem C7_nodup_preserved_witness :
    (storeIds (step { initialState with generatedImages := [flashImg] }
        (Op.upload "d")).1).Nodup :=
  C7_nodup_preserved { initialState with generatedImages := [flashImg] }
    (Op.upload "d") (by decide) True.intro

/-- Claim C8 counterexample: with no user instruction the per-angle
prompt starts with capital Keep, so it is not the lowercase template
quoted in the claim. -/
theorem C8_cex :
    fullPromptFor ""
        { name := "Low Angle",
          promptSuffix := "viewed from a low camera angle, looking up, dramatic perspective" }
      = "Keep the subject but change camera to viewed from a low camera angle, looking up, dramatic perspective"
  ∧ fullPromptFor ""
        { name := "Low Angle",
          promptSuffix := "viewed from a low camera angle, looking up, dramatic perspective" }
      ≠ "keep the subject but change camera to viewed from a low camera angle, looking up, dramatic perspective" := by
  decide

/-- Claim C8 (amended): with a non-empty instruction the per-angle prompt
sent to the edit capability is the instruction, a comma and the suffix;
with an empty instruction it is the template with capital K, namely
Keep the subject but change camera to, followed by the suffix.  The batch
dispatches exactly one edit call per table angle with that prompt, and
every stored artifact of the batch carries that prompt prefixed by the
name of its angle. -/
theorem C8_prompts (env : CallEnv) (ctx : GenCtx) (src userPrompt : String) (r : Aspect) :
    (∀ a, userPrompt ≠ "" →
      fullPromptFor userPrompt a = userPrompt ++ ", " ++ a.promptSuffix)
  ∧ (∀ a, userPrompt = "" →
      fullPromptFor userPrompt a = "Keep the subject but change camera to " ++ a.promptSuffix)
  ∧ (∀ st : AppState, st.mode = GenerationMode.EDIT_ANGLES → st.inputImage = some src →
      (handleGenerate env ctx st).2
        = angles.map fun a => CallRec.editCall src (fullPromptFor st.prompt a)
            st.selectedAspect)
  ∧ (∀ q ∈ fulfilledWithIdx 0 (batchResults env ctx src userPrompt r),
      ∃ a, angles[q.1]? = some a
        ∧ q.2.prompt = a.name ++ ": " ++ fullPromptFor userPrompt a) := by
  refine ⟨?_, ?_, ?_, ?_⟩
  · intro a hne
    unfold fullPromptFor
    rw [if_neg hne]
  · intro a he
    unfold fullPromptFor
    rw [if_pos he]
  · intro st hm hi
    obtain ⟨mo, p, ii, gi, er, sz, ra, vi, iu, hk⟩ := st
    obtain rfl : mo = GenerationMode.EDIT_ANGLES := hm
    obtain rfl : ii = some src := hi
    by_cases hs : fulfilledOf (batchResults env ctx src p ra) = [] <;>
      simp [handleGenerate, hs, editTrace]
  · intro q hq
    have hq' : q ∈ fulfilledWithIdx 0 (settleAll env ctx src userPrompt r 0 angles) := hq
    obtain ⟨-, -, a, b, ha, hb⟩ :=
      fulfilledWithIdx_settleAll env ctx src userPrompt r angles 0 q hq'
    rw [Nat.sub_zero] at ha
    exact ⟨a, ha, by rw [hb]; rfl⟩

/-- Claim C8 witness: a concrete instruction and the first table angle. -/
theorem C8_prompts_witness :
    fullPromptFor "style"
        { name := "Low Angle",
          promptSuffix := "viewed from a low camera angle, looking up, dramatic perspective" }
      = "style" ++ ", "
          ++ ({ name := "Low Angle",
                promptSuffix := "viewed from a low camera angle, looking up, dramatic perspective" }
              : AngleSpec).promptSuffix :=
  (C8_prompts okEnv ctx42 "src" "style" Aspect.a1x1).1
    { name := "Low Angle",
      promptSuffix := "viewed from a low camera angle, looking up, dramatic perspective" }
    (by decide)

/-- Claim C9: when the viewed artifact already carries the Upscaled
marker in its model string, the button guard disables the upscale
operation: clicking changes nothing and no external call is issued. -/
theorem C9_upscale_guard (env : CallEnv) (ctx : GenCtx) (st : AppState) (img : ImageResult)
    (hv : st.viewImage = some img) (hu : strIncludes img.model "Upscaled" = true) :
    clickUpscale env ctx st = (st, []) := by
  unfold clickUpscale
  rw [hv]
  simp [upscaleButtonDisabled, hu]

/-- The already-upscaled artifact used in concrete instances. -/
def upsImg : ImageResult :=
  { id := "i2", data := "D2", mimeType := "image/png", prompt := "P2",
    model := "gemini-3-pro-image-preview (Upscaled)", timestamp := 9 }

/-- Claim C9 witness. -/
theorem C9_upscale_guard_witness :
    clickUpscale okEnv ctx42 { initialState with viewImage := some upsImg }
      = ({ initialState with viewImage := some upsImg }, []) :=
  C9_upscale_guard okEnv ctx42 { initialState with viewImage := some upsImg } upsImg
    rfl (by decide)

/-- Claim C10: uploading a new source image stores it as the edit-mode
source, resets the Result Store to the empty list, and issues no external
call. -/
theorem C10_upload_resets (st : AppState) (d : String) :
    (handleImageUpload st d).1.generatedImages = []
  ∧ (handleImageUpload st d).1.inputImage = some d
  ∧ (handleImageUpload st d).2 = [] :=
  ⟨rfl, rfl, rfl⟩
